/-
  Verification of the LegisWatch backend (src/app.py) against its
  natural-language specification.

  The Python source is shallowly embedded below: every definition is a
  direct translation of the corresponding function in src/app.py (line
  numbers cited in each doc comment).  Network I/O is made explicit: each
  upstream HTTP interaction is a parameter of the embedded function, a
  value of an outcome type whose constructors mirror the branches the
  Python code distinguishes (exception raised, status code, JSON payload).
  Python dict fields that may be absent are `Option String` (absent keys
  and explicit JSON nulls are both `none`; `dict.get(k, d)` is `getD`).
-/
import Mathlib

set_option maxRecDepth 16384

namespace LegisWatch

/-! ## String helpers mirroring Python primitives -/

/-- Python list-prefix test used by `hasSub` (chars compared one by one). -/
def isPfx : List Char → List Char → Bool
  | [], _ => true
  | _ :: _, [] => false
  | a :: as, b :: bs => (a = b) && isPfx as bs

/-- Python substring test `needle in hay` on explicit char lists:
true iff `needle` occurs contiguously in `hay` (the empty needle always
occurs, as in Python). -/
def hasSub : List Char → List Char → Bool
  | needle, [] => needle.isEmpty
  | needle, c :: rest => isPfx needle (c :: rest) || hasSub needle rest

/-- Python `needle in hay` for strings. -/
def strContains (hay needle : String) : Bool :=
  hasSub needle.data hay.data

/-- Helper for `pyTitle`: walk the characters tracking whether the previous
character was alphabetic (inside a word). -/
def pyTitleAux : List Char → Bool → List Char
  | [], _ => []
  | c :: rest, prevAlpha =>
    if c.isAlpha then
      (if prevAlpha then c.toLower else c.toUpper) :: pyTitleAux rest true
    else
      c :: pyTitleAux rest false

/-- Python `str.title()` (ASCII behaviour): the first letter of each
maximal run of letters is upper-cased, the following letters lower-cased,
other characters are left unchanged. -/
def pyTitle (s : String) : String :=
  ⟨pyTitleAux s.data false⟩

/-- Python truthiness of an optional environment string: `None` and the
empty string are falsy. -/
def pyTruthy (o : Option String) : Bool :=
  match o with
  | none => false
  | some s => s ≠ ""

/-- Python `str.upper()` (ASCII behaviour), written over the character
list so that it evaluates by kernel reduction. -/
def pyUpper (s : String) : String :=
  ⟨s.data.map Char.toUpper⟩

/-- Python `str.lower()` (ASCII behaviour). -/
def pyLower (s : String) : String :=
  ⟨s.data.map Char.toLower⟩

/-- Python `str.strip()`: remove leading and trailing whitespace. -/
def pyStrip (s : String) : String :=
  ⟨((s.data.dropWhile Char.isWhitespace).reverse.dropWhile Char.isWhitespace).reverse⟩

/-- Python `len` on a string (number of code points). -/
def pyLen (s : String) : Nat :=
  s.data.length

/-! ## Data model

`Bill` is the canonical formatted record the aggregator returns (the dict
literals built at src/app.py:221-231, 254-264, 468-477, 510-520 all have
exactly these keys; `ai_summary` is attached later only by the route layer
and is not part of the aggregator output). -/

structure Bill where
  id : String
  title : String
  summary : String
  introduced_date : String
  sponsor : String
  congress_url : String
  bill_type : String
  number : String
  updateDate : String
deriving Repr, DecidableEq

/-- Upstream sponsor dict (fields read at src/app.py:307-310). -/
structure Sponsor where
  firstName : Option String := none
  lastName : Option String := none
  party : Option String := none
  state : Option String := none
deriving Repr, DecidableEq

/-- Upstream bill JSON object, restricted to the keys the Python code
reads.  `btype` is the JSON key `type`; `summariesArr` is the list of
`text` fields of `summaries.summaries` (each `none` when the `text` key is
absent), read at src/app.py:250-252. -/
structure RawBill where
  title : Option String := none
  btype : Option String := none
  number : Option String := none
  introducedDate : Option String := none
  updateDate : Option String := none
  summary : Option String := none
  latestSummary : Option String := none
  summary_short : Option String := none
  description : Option String := none
  sponsors : List Sponsor := []
  summariesArr : List (Option String) := []
deriving Repr, DecidableEq

/-! ## Pure formatting helpers (src/app.py:270-359) -/

/-- `BillTracker.current_congress` (src/app.py:45). -/
def currentCongress : Nat := 118

/-- The `type_mapping.get(bill_type.upper(), 'bill')` lookup of
`_generate_congress_url` (src/app.py:276-287). -/
def urlSegment (billType : String) : String :=
  match pyUpper billType with
  | "HR" => "house-bill"
  | "S" => "senate-bill"
  | "HJRES" => "house-joint-resolution"
  | "SJRES" => "senate-joint-resolution"
  | "HCONRES" => "house-concurrent-resolution"
  | "SCONRES" => "senate-concurrent-resolution"
  | "HRES" => "house-resolution"
  | "SRES" => "senate-resolution"
  | _ => "bill"

/-- `BillTracker._generate_congress_url` (src/app.py:270-288).  The Python
arguments are strings (or `None`, conflated with `""` here, both falsy). -/
def generateCongressUrl (billType billNumber : String) : String :=
  if billType = "" ∨ billNumber = "" then
    "https://www.congress.gov"
  else
    "https://www.congress.gov/bill/" ++ toString currentCongress ++ "th-congress/"
      ++ urlSegment billType ++ "/" ++ billNumber

/-- The fixed 50-state table of `_normalize_state` (src/app.py:337-351). -/
def state_mapping : List (String × String) :=
  [("alabama", "AL"), ("alaska", "AK"), ("arizona", "AZ"), ("arkansas", "AR"),
   ("california", "CA"), ("colorado", "CO"), ("connecticut", "CT"), ("delaware", "DE"),
   ("florida", "FL"), ("georgia", "GA"), ("hawaii", "HI"), ("idaho", "ID"),
   ("illinois", "IL"), ("indiana", "IN"), ("iowa", "IA"), ("kansas", "KS"),
   ("kentucky", "KY"), ("louisiana", "LA"), ("maine", "ME"), ("maryland", "MD"),
   ("massachusetts", "MA"), ("michigan", "MI"), ("minnesota", "MN"), ("mississippi", "MS"),
   ("missouri", "MO"), ("montana", "MT"), ("nebraska", "NE"), ("nevada", "NV"),
   ("new hampshire", "NH"), ("new jersey", "NJ"), ("new mexico", "NM"), ("new york", "NY"),
   ("north carolina", "NC"), ("north dakota", "ND"), ("ohio", "OH"), ("oklahoma", "OK"),
   ("oregon", "OR"), ("pennsylvania", "PA"), ("rhode island", "RI"), ("south carolina", "SC"),
   ("south dakota", "SD"), ("tennessee", "TN"), ("texas", "TX"), ("utah", "UT"),
   ("vermont", "VT"), ("virginia", "VA"), ("washington", "WA"), ("west virginia", "WV"),
   ("wisconsin", "WI"), ("wyoming", "WY")]

/-- `BillTracker._normalize_state` (src/app.py:335-359) exactly as the
source executes.  NOTE: at src/app.py:359 the final
`return state_mapping.get(state_lower, ...)` sits on the same line as the
comment `# If it's a full state name` and is therefore commented out, so
the function falls off the end and returns `None` for every input other
than a valid 2-letter abbreviation.  `state_lower` is computed (line 353)
but, because of that, never used. -/
def normalizeState (state_input : String) : Option String :=
  let _state_lower := pyStrip (pyLower state_input)
  if pyLen state_input = 2 ∧ (state_mapping.map Prod.snd).any (fun v => v = pyUpper state_input) then
    some (pyUpper state_input)
  else
    none

/-- `BillTracker._get_bill_summary` inner loop (src/app.py:290-300): the
first candidate field that is a non-blank string, trimmed. -/
def firstNonBlank : List (Option String) → Option String
  | [] => none
  | none :: rest => firstNonBlank rest
  | some s :: rest => if pyStrip s ≠ "" then some (pyStrip s) else firstNonBlank rest

/-- `BillTracker._get_bill_summary` (src/app.py:290-300). -/
def getBillSummary (bill : RawBill) : String :=
  (firstNonBlank [bill.summary, bill.latestSummary, bill.summary_short, bill.description]).getD
    "No summary available"

/-- `BillTracker._get_sponsor_info_from_bill` (src/app.py:302-317). -/
def getSponsorInfo (bill : RawBill) : String :=
  match bill.sponsors with
  | [] => "Unknown"
  | sponsor :: _ =>
    let first_name := sponsor.firstName.getD ""
    let last_name := sponsor.lastName.getD ""
    let party := sponsor.party.getD ""
    let state := sponsor.state.getD ""
    if first_name ≠ "" ∧ last_name ≠ "" then
      first_name ++ " " ++ last_name ++ " (" ++ party ++ "-" ++ state ++ ")"
    else if last_name ≠ "" then
      last_name ++ " (" ++ party ++ "-" ++ state ++ ")"
    else
      "Unknown"

/-- Zero-padded 2-digit rendering, as `strftime("%m")` / `%d`. -/
def pad2 (n : Nat) : String :=
  if n < 10 then "0" ++ toString n else toString n

/-- Zero-padded 4-digit rendering, as `strftime("%Y")`. -/
def pad4 (n : Nat) : String :=
  if n < 10 then "000" ++ toString n
  else if n < 100 then "00" ++ toString n
  else if n < 1000 then "0" ++ toString n
  else toString n

/-- Split a character list at every `'-'` (as `"y-m-d".split("-")`). -/
def splitOnDash : List Char → List (List Char)
  | [] => [[]]
  | c :: rest =>
    if c = '-' then [] :: splitOnDash rest
    else
      match splitOnDash rest with
      | [] => [[c]]
      | h :: t => (c :: h) :: t

/-- Parse a non-empty all-digit character list as a decimal `Nat`. -/
def charsToNat : List Char → Option Nat
  | [] => none
  | cs =>
    if cs.all Char.isDigit then
      some (cs.foldl (fun n c => n * 10 + (c.toNat - 48)) 0)
    else none

/-- Date-component parsing modelling `datetime.strptime(s, "%Y-%m-%d")`
(src/app.py:329): three dash-separated numeric components with calendar
range checks.  A simplified model: component-width and day-of-month
validation is coarser than CPython's, which no verified claim depends on. -/
def parseYmd (s : String) : Option (Nat × Nat × Nat) :=
  match splitOnDash s.data with
  | [y, m, d] =>
    match charsToNat y, charsToNat m, charsToNat d with
    | some yn, some mn, some dn =>
      if 1 ≤ mn ∧ mn ≤ 12 ∧ 1 ≤ dn ∧ dn ≤ 31 then some (yn, mn, dn) else none
    | _, _, _ => none
  | _ => none

/-- `strftime("%Y-%m-%d")` on a parsed date. -/
def formatYmd (t : Nat × Nat × Nat) : String :=
  pad4 t.1 ++ "-" ++ pad2 t.2.1 ++ "-" ++ pad2 t.2.2

/-- `BillTracker._format_date` (src/app.py:319-333): empty input gives
`"Unknown"`; otherwise the date is re-rendered as `YYYY-MM-DD` when it
parses, and the raw input string is returned unchanged when parsing fails
(the bare `except` at line 332).  For inputs containing `'T'` the source
parses an ISO datetime and formats only its date part; here the part
before the `'T'` is parsed (a malformed time component, which CPython
would reject and fall back to the raw string on, is not detected). -/
def formatDate (date_string : String) : String :=
  if date_string = "" then "Unknown"
  else
    match parseYmd (if date_string.data.contains 'T' then
        ⟨date_string.data.takeWhile (fun c => c ≠ 'T')⟩
      else date_string) with
    | some t => formatYmd t
    | none => date_string

/-! ## Bill formatting (src/app.py:212-268) -/

/-- `BillTracker._format_basic_bill` (src/app.py:212-235).  The source
wraps the body in `try/except` and returns `None` on an exception; in the
typed embedding no exception can occur, so the result is always `some` —
the `Option` is kept because callers filter on it. -/
def formatBasicBill (bill : RawBill) : Option Bill :=
  let bill_type := pyUpper (bill.btype.getD "")
  let bill_number := bill.number.getD "N/A"
  some {
    id := bill_type ++ bill_number
    title := bill.title.getD "No title available"
    summary := getBillSummary bill
    introduced_date := formatDate (bill.introducedDate.getD (bill.updateDate.getD ""))
    sponsor := getSponsorInfo bill
    congress_url := generateCongressUrl bill_type bill_number
    bill_type := bill_type
    number := bill_number
    updateDate := bill.updateDate.getD "" }

/-- `BillTracker._format_detailed_bill` (src/app.py:237-268).  Same
formatting as the basic case except: the summary falls back to
`summaries.summaries[0].text` when the field-based summary is blank or
the placeholder, and `introduced_date` has no `updateDate` fallback. -/
def formatDetailedBill (bill : RawBill) : Option Bill :=
  let bill_type := pyUpper (bill.btype.getD "")
  let bill_number := bill.number.getD "N/A"
  let summary0 := getBillSummary bill
  let summary :=
    if summary0 = "" ∨ summary0 = "No summary available" then
      match bill.summariesArr with
      | [] => summary0
      | first :: _ => first.getD "No summary available"
    else summary0
  some {
    id := bill_type ++ bill_number
    title := bill.title.getD "No title available"
    summary := summary
    introduced_date := formatDate (bill.introducedDate.getD "")
    sponsor := getSponsorInfo bill
    congress_url := generateCongressUrl bill_type bill_number
    bill_type := bill_type
    number := bill_number
    updateDate := bill.updateDate.getD "" }

/-! ## Keyword mock fallback (src/app.py:361-480) -/

/-- One entry of the literal mock-bill dicts (src/app.py:364-451): the
keys each dict carries (`type`, `number`, `title`, `summary`, `sponsor`,
`introducedDate`), all always-present strings. -/
structure MockBill where
  mtype : String
  number : String
  title : String
  summary : String
  sponsor : String
  introducedDate : String
deriving Repr, DecidableEq

/-- The `mock_bills_db` table of `_get_mock_bills` (src/app.py:364-431),
in source order. -/
def mock_bills_db : List (String × List MockBill) :=
  [("healthcare",
    [{ mtype := "HR", number := "3421",
       title := "Healthcare Accessibility and Affordability Act of 2024",
       summary := "A bill to improve access to healthcare services and reduce prescription drug costs for Americans. This comprehensive legislation addresses key issues in healthcare delivery and aims to expand coverage while maintaining quality of care.",
       sponsor := "Rep. Sarah Johnson (D-CA)",
       introducedDate := "2024-12-15" },
     { mtype := "S", number := "1247",
       title := "Medicare Enhancement and Protection Act",
       summary := "To strengthen Medicare benefits and protect seniors from rising healthcare costs. The bill includes provisions for dental and vision coverage under Medicare Part B.",
       sponsor := "Sen. Michael Thompson (R-TX)",
       introducedDate := "2024-12-10" }]),
   ("climate",
    [{ mtype := "HR", number := "2156",
       title := "Clean Energy Infrastructure Investment Act",
       summary := "Legislation to accelerate the deployment of renewable energy infrastructure and create green jobs across America. Includes tax incentives for solar and wind energy projects.",
       sponsor := "Rep. Elena Rodriguez (D-NV)",
       introducedDate := "2024-12-18" },
     { mtype := "S", number := "892",
       title := "Climate Resilience and Adaptation Act of 2024",
       summary := "A comprehensive approach to climate adaptation and resilience building in vulnerable communities. Provides federal funding for climate-resilient infrastructure.",
       sponsor := "Sen. James Wilson (I-VT)",
       introducedDate := "2024-12-12" }]),
   ("education",
    [{ mtype := "HR", number := "4567",
       title := "Student Debt Relief and College Affordability Act",
       summary := "To provide student loan forgiveness and make college more affordable for middle-class families. Includes provisions for community college funding and trade school support.",
       sponsor := "Rep. David Chen (D-WA)",
       introducedDate := "2024-12-20" }]),
   ("infrastructure",
    [{ mtype := "HR", number := "1789",
       title := "National Infrastructure Modernization Act",
       summary := "A comprehensive infrastructure bill addressing roads, bridges, broadband, and water systems. Aims to create jobs while modernizing America\x27s infrastructure.",
       sponsor := "Rep. Maria Gonzalez (R-FL)",
       introducedDate := "2024-12-14" }]),
   ("technology",
    [{ mtype := "HR", number := "2890",
       title := "Digital Privacy and Security Act of 2024",
       summary := "Comprehensive legislation to protect consumer data privacy and enhance cybersecurity standards for businesses. Includes requirements for data breach notifications and user consent.",
       sponsor := "Rep. Jennifer Kim (D-CA)",
       introducedDate := "2024-12-13" }])]

/-- The `default_bills` list of `_get_mock_bills` (src/app.py:434-451),
whose title and summary interpolate the requested keyword. -/
def defaultBills (keyword : String) : List MockBill :=
  [{ mtype := "HR", number := "5001",
     title := "American Innovation and Competitiveness Act Related to " ++ pyTitle keyword,
     summary := "Legislation addressing " ++ keyword ++ " policy and its impact on American competitiveness. This bill aims to strengthen our nation\x27s position in " ++ keyword ++ "-related sectors through targeted investments and regulatory reforms.",
     sponsor := "Rep. Alex Martinez (D-NY)",
     introducedDate := "2024-12-16" },
   { mtype := "S", number := "2301",
     title := "Bipartisan " ++ pyTitle keyword ++ " Reform Act of 2024",
     summary := "A bipartisan approach to " ++ keyword ++ " reform that brings together stakeholders from across the political spectrum. The bill includes provisions for transparency, accountability, and effectiveness in " ++ keyword ++ " policy.",
     sponsor := "Sen. Robert Davis (R-GA)",
     introducedDate := "2024-12-11" }]

/-- The per-bill formatting loop shared by `_get_mock_bills`
(src/app.py:466-478) and `_get_mock_bills_by_state` (src/app.py:507-521):
the dict literal built for each mock entry. -/
def formatMockBill (bill : MockBill) : Bill :=
  { id := bill.mtype ++ bill.number
    title := bill.title
    summary := bill.summary
    introduced_date := bill.introducedDate
    sponsor := bill.sponsor
    congress_url := generateCongressUrl bill.mtype bill.number
    bill_type := bill.mtype
    number := bill.number
    updateDate := bill.introducedDate }

/-- The topic-matching loop of `_get_mock_bills` (src/app.py:454-459):
bills of every topic `t` with `t in keyword.lower() or keyword.lower() in t`. -/
def mockRelevant (keyword : String) : List MockBill :=
  let keyword_lower := pyLower keyword
  (mock_bills_db.filter
      (fun p => strContains keyword_lower p.1 || strContains p.1 keyword_lower)).flatMap
    Prod.snd

/-- `BillTracker._get_mock_bills` (src/app.py:361-480). -/
def getMockBills (keyword : String) : List Bill :=
  let relevant_bills := mockRelevant keyword
  let relevant_bills := if relevant_bills = [] then defaultBills keyword else relevant_bills
  relevant_bills.map formatMockBill

/-! ## Keyword search (src/app.py:47-142)

The two HTTP interactions of the keyword search are explicit parameters:
the listing request (src/app.py:58-61, which can raise a transport error
or any other exception — both `except` arms at lines 76-81 return the mock
bills) and the per-bill detail request (src/app.py:131). -/

/-- Outcome of the per-bill detail request (src/app.py:131): either an
exception during the request, or a response with a status code and the
`bill` object of its JSON payload (`detail_data.get('bill', {})`,
src/app.py:134-135). -/
inductive DetailOutcome where
  | exception
  | response (status : Nat) (bill : RawBill)

/-- Outcome of the bill-listing request (src/app.py:58-62): `fail` covers
a `RequestException` (raised requests, `raise_for_status` on a bad
status) and any other exception inside the `try`; `ok` carries the
`bills` array of the JSON payload. -/
inductive SearchOutcome where
  | fail
  | ok (bills : List RawBill)

/-- The upstream world a single keyword search runs against. -/
structure KeywordNet where
  search : SearchOutcome
  detail : RawBill → DetailOutcome

/-- `BillTracker._filter_bills_by_keyword` (src/app.py:106-116):
case-insensitive substring match of the keyword against each title. -/
def filterBillsByKeyword (bills : List RawBill) (keyword : String) : List RawBill :=
  let keyword_lower := pyLower keyword
  bills.filter (fun bill => strContains (pyLower (bill.title.getD "")) keyword_lower)

/-- `BillTracker._get_bill_details` (src/app.py:118-142): falls back to
basic formatting when the bill lacks number or type, when the detail
request raises, or when its status is not 200. -/
def getBillDetails (detail : RawBill → DetailOutcome) (bill : RawBill) : Option Bill :=
  let bill_number := bill.number.getD ""
  let bill_type := pyLower (bill.btype.getD "")
  if bill_number = "" ∨ bill_type = "" then formatBasicBill bill
  else
    match detail bill with
    | .exception => formatBasicBill bill
    | .response status bill_detail =>
      if status = 200 then formatDetailedBill bill_detail
      else formatBasicBill bill

/-- `BillTracker.search_bills_by_keyword` (src/app.py:47-81): on a failed
listing request (or any exception in the `try`) both `except` arms return
`_get_mock_bills(keyword)`; otherwise the fetched page is filtered by
keyword, the first `limit` survivors get a detail fetch, and formatting
results that are `None` are dropped (src/app.py:69-72). -/
def searchBillsByKeyword (net : KeywordNet) (keyword : String) (limit : Nat) : List Bill :=
  match net.search with
  | .fail => getMockBills keyword
  | .ok bills =>
    let filtered_bills := filterBillsByKeyword bills keyword
    ((filtered_bills.take limit).map (getBillDetails net.detail)).reduceOption

/-! ## State mock fallback (src/app.py:482-523)

`hash` is CPython's salted string hash: implementation-defined but fixed
within one process (the spec itself notes the algorithm is
implementation-defined), so the embedding is parameterised by a function
`h : String → Nat` standing for `abs(hash(·))`. -/

/-- `BillTracker._get_mock_bills_by_state` (src/app.py:482-523). -/
def getMockBillsByState (h : String → Nat) (state : String) : List Bill :=
  let state_abbr := (normalizeState state).getD (pyUpper state)
  let state_bills : List MockBill :=
    [{ mtype := "HR", number := toString (h state_abbr % 9000 + 1000),
       title := state ++ " Economic Development and Infrastructure Act",
       summary := "A bill to promote economic development and improve infrastructure in the state of " ++ state ++ ". Includes funding for transportation, broadband expansion, and job training programs specific to " ++ state ++ "\x27s needs.",
       sponsor := "Rep. [Representative Name] (D-" ++ state_abbr ++ ")",
       introducedDate := "2024-12-19" },
     { mtype := "S", number := toString (h (state_abbr ++ "senate") % 2000 + 100),
       title := state ++ " Small Business Support Act of 2024",
       summary := "Legislation to support small businesses and entrepreneurs in " ++ state ++ ". Provides tax incentives, grants, and loan guarantees for small business development in rural and urban areas of " ++ state ++ ".",
       sponsor := "Sen. [Senator Name] (R-" ++ state_abbr ++ ")",
       introducedDate := "2024-12-17" }]
  state_bills.map formatMockBill

/-- `BillTracker.search_bills_by_state` (src/app.py:83-104) on its two
failure paths: when no members are resolved (src/app.py:89-90, which is
what an unreachable upstream produces, since `_get_members_by_state`
swallows its own exceptions and returns `[]`, src/app.py:176-178) and when
any exception escapes the `try` (src/app.py:102-104), the function returns
`_get_mock_bills_by_state(state)`. -/
def searchBillsByStateFailed (h : String → Nat) (state : String) : List Bill :=
  getMockBillsByState h state

/-! ## LLM summary enrichment (src/app.py:529-561) -/

/-- Shape of the summarization response body as the code inspects it
(src/app.py:552-554): not a JSON list, an empty list, or a list whose
first element is a dict whose `summary_text` field is carried here
(`none` when the key is absent). -/
inductive LlmBody where
  | nonList
  | list (elems : List (Option String))

/-- Outcome of the summarization POST (src/app.py:549): an exception
(timeout, transport error, invalid JSON, ...) caught at src/app.py:559,
or a response with its status and body. -/
inductive LlmOutcome where
  | exception
  | response (status : Nat) (body : LlmBody)

/-- The canned no-credential string (src/app.py:533). -/
def noKeyFallback (topic : String) : String :=
  "AI Summary not available (API key required). This bill relates to " ++ topic ++ "."

/-- The canned failed-call string (src/app.py:557). -/
def failFallback (topic : String) : String :=
  "This bill addresses " ++ topic ++ "-related policies and may impact regulatory compliance for businesses."

/-- The canned exception string (src/app.py:561). -/
def exceptionFallback (topic : String) : String :=
  "AI summary unavailable. This bill relates to " ++ topic ++ " and may have regulatory implications."

/-- `get_llm_summary` (src/app.py:529-561).  `apiKey` is the
`HUGGINGFACE_API_KEY` environment value (`none` when unset; Python also
treats an empty string as unset via `if not HUGGINGFACE_API_KEY`). -/
def getLlmSummary (apiKey : Option String) (outcome : LlmOutcome)
    (_bill_text topic : String) : String :=
  if ¬ pyTruthy apiKey then noKeyFallback topic
  else
    match outcome with
    | .exception => exceptionFallback topic
    | .response status body =>
      if status = 200 then
        match body with
        | .list (first :: _) => first.getD "Summary not available"
        | _ => failFallback topic
      else failFallback topic

/-! ## CSV export (src/app.py:604-645)

CSV byte-encoding is a commodity-library concern; the export is modelled
at the row level: the header row and one row of 7 cells per bill. -/

/-- The header row written at src/app.py:619. -/
def exportHeader : List String :=
  ["Bill ID", "Title", "Summary", "Introduced Date", "Sponsor", "Type", "Congress URL"]

/-- The per-bill row written at src/app.py:623-631. -/
def billRow (bill : Bill) : List String :=
  [bill.id, bill.title, bill.summary, bill.introduced_date, bill.sponsor,
   bill.bill_type, bill.congress_url]

/-- `api_export` (src/app.py:604-645): an empty (or absent) `bills` list
is rejected with a 400 error (src/app.py:611-612); otherwise the CSV rows
are the header followed by one row per bill in input order. -/
def apiExport (bills : List Bill) : Except String (List (List String)) :=
  if bills = [] then .error "No bills to export"
  else .ok (exportHeader :: bills.map billRow)

/-! ## Concrete fixtures used by witnesses and counterexamples -/

/-- The first canned healthcare mock bill, fully formatted (what
`_get_mock_bills('healthcare')` produces for its HR entry). -/
def mockHealthcareBill1 : Bill :=
  { id := "HR3421"
    title := "Healthcare Accessibility and Affordability Act of 2024"
    summary := "A bill to improve access to healthcare services and reduce prescription drug costs for Americans. This comprehensive legislation addresses key issues in healthcare delivery and aims to expand coverage while maintaining quality of care."
    introduced_date := "2024-12-15"
    sponsor := "Rep. Sarah Johnson (D-CA)"
    congress_url := "https://www.congress.gov/bill/118th-congress/house-bill/3421"
    bill_type := "HR"
    number := "3421"
    updateDate := "2024-12-15" }

/-- The second canned healthcare mock bill, fully formatted (the S entry). -/
def mockHealthcareBill2 : Bill :=
  { id := "S1247"
    title := "Medicare Enhancement and Protection Act"
    summary := "To strengthen Medicare benefits and protect seniors from rising healthcare costs. The bill includes provisions for dental and vision coverage under Medicare Part B."
    introduced_date := "2024-12-10"
    sponsor := "Sen. Michael Thompson (R-TX)"
    congress_url := "https://www.congress.gov/bill/118th-congress/senate-bill/1247"
    bill_type := "S"
    number := "1247"
    updateDate := "2024-12-10" }

/-- A network in which the listing request fails (upstream unreachable). -/
def failNet : KeywordNet :=
  { search := SearchOutcome.fail, detail := fun _ => DetailOutcome.exception }

/-- An upstream bill carrying only a title: no type, number, dates,
summary fields or sponsors. -/
def c2RawBasic : RawBill := { title := some "healthcare reform" }

/-- An upstream bill with a type and number, so that its detail fetch is
attempted. -/
def c2RawListed : RawBill :=
  { title := some "healthcare x", btype := some "hr", number := some "1" }

/-- A 200 detail payload whose `title` and `number` are present but empty
strings and whose first `summaries.summaries` entry has `text = ""`. -/
def c2DetailRaw : RawBill :=
  { title := some "", number := some "", summariesArr := [some ""] }

/-- A network whose listing succeeds with the two bills above and whose
every detail request returns 200 with `c2DetailRaw`. -/
def c2Net : KeywordNet :=
  { search := SearchOutcome.ok [c2RawBasic, c2RawListed]
    detail := fun _ => DetailOutcome.response 200 c2DetailRaw }

/-- A simple well-formed bill used to exercise the CSV export. -/
def sampleBill : Bill :=
  { id := "HR1"
    title := "Sample"
    summary := "Sample summary"
    introduced_date := "2024-01-01"
    sponsor := "Rep. Sample (D-AA)"
    congress_url := "https://www.congress.gov"
    bill_type := "HR"
    number := "1"
    updateDate := "2024-01-01" }

/-! ## Helper lemmas -/

theorem data_eq_nil_iff (s : String) : s = "" ↔ s.data = [] := by
  constructor
  · intro h; subst h; rfl
  · intro h; exact String.ext (h.trans rfl)

theorem append_ne_empty_left (a b : String) (ha : a ≠ "") : a ++ b ≠ "" := by
  intro h
  have hd := congrArg String.data h
  rw [String.data_append] at hd
  rcases List.append_eq_nil.mp hd with ⟨h1, _⟩
  exact ha ((data_eq_nil_iff a).mpr h1)

theorem append_ne_empty_right (a b : String) (hb : b ≠ "") : a ++ b ≠ "" := by
  intro h
  have hd := congrArg String.data h
  rw [String.data_append] at hd
  rcases List.append_eq_nil.mp hd with ⟨_, h2⟩
  exact hb ((data_eq_nil_iff b).mpr h2)

/-- `_format_date` never returns the empty string: empty input becomes
`"Unknown"`, unparsable input is returned unchanged, and a parsed date is
re-rendered with dashes. -/
theorem formatDate_ne_empty (s : String) : formatDate s ≠ "" := by
  unfold formatDate
  split
  · decide
  · rename_i hs
    split
    · simp only [formatYmd]
      apply append_ne_empty_left
      apply append_ne_empty_right
      decide
    · exact hs

/-- `_get_sponsor_info_from_bill` never returns the empty string. -/
theorem getSponsorInfo_ne_empty (bill : RawBill) : getSponsorInfo bill ≠ "" := by
  unfold getSponsorInfo
  split
  · decide
  · dsimp only
    split
    · apply append_ne_empty_right
      decide
    · split
      · apply append_ne_empty_right
        decide
      · decide

/-- `_generate_congress_url` never returns the empty string. -/
theorem generateCongressUrl_ne_empty (t n : String) : generateCongressUrl t n ≠ "" := by
  unfold generateCongressUrl
  split
  · decide
  · apply append_ne_empty_left
    apply append_ne_empty_right
    decide

/-- Every canned topic bill in `mock_bills_db` has a non-empty
introduced date and sponsor. -/
theorem mock_db_fields : ∀ p ∈ mock_bills_db, ∀ mb ∈ p.2,
    mb.introducedDate ≠ "" ∧ mb.sponsor ≠ "" := by decide

/-- Both generic default bills have a non-empty introduced date and
sponsor, for every keyword. -/
theorem defaultBills_fields (kw : String) : ∀ mb ∈ defaultBills kw,
    mb.introducedDate ≠ "" ∧ mb.sponsor ≠ "" := by
  intro mb hmb
  simp only [defaultBills, List.mem_cons, List.not_mem_nil, or_false] at hmb
  rcases hmb with h | h
  · subst h
    exact ⟨by show "2024-12-16" ≠ ""; decide, by show "Rep. Alex Martinez (D-NY)" ≠ ""; decide⟩
  · subst h
    exact ⟨by show "2024-12-11" ≠ ""; decide, by show "Sen. Robert Davis (R-GA)" ≠ ""; decide⟩

/-- Every topic bill selected by the keyword match has a non-empty
introduced date and sponsor. -/
theorem mockRelevant_fields (kw : String) : ∀ mb ∈ mockRelevant kw,
    mb.introducedDate ≠ "" ∧ mb.sponsor ≠ "" := by
  intro mb hmb
  unfold mockRelevant at hmb
  rw [List.mem_flatMap] at hmb
  obtain ⟨p, hp, hmbp⟩ := hmb
  exact mock_db_fields p (List.mem_of_mem_filter hp) mb hmbp

/-- Every bill of the keyword mock fallback has a non-empty introduced
date, sponsor and congress URL. -/
theorem getMockBills_fields (kw : String) : ∀ b ∈ getMockBills kw,
    b.introduced_date ≠ "" ∧ b.sponsor ≠ "" ∧ b.congress_url ≠ "" := by
  intro b hb
  unfold getMockBills at hb
  rw [List.mem_map] at hb
  obtain ⟨mb, hmb, rfl⟩ := hb
  refine ⟨?_, ?_, generateCongressUrl_ne_empty _ _⟩ <;> split at hmb
  · exact (defaultBills_fields kw mb hmb).1
  · exact (mockRelevant_fields kw mb hmb).1
  · exact (defaultBills_fields kw mb hmb).2
  · exact (mockRelevant_fields kw mb hmb).2

/-- The keyword mock fallback never returns an empty list: a matched
topic contributes its bills, and an unmatched keyword gets the two
default bills. -/
theorem getMockBills_ne_nil (kw : String) : getMockBills kw ≠ [] := by
  unfold getMockBills
  dsimp only
  split
  · simp [defaultBills]
  · rename_i h
    simpa using h

/-- `_format_basic_bill` output always has a non-empty introduced date,
sponsor and congress URL. -/
theorem formatBasicBill_core (raw : RawBill) (b : Bill)
    (h : formatBasicBill raw = some b) :
    b.introduced_date ≠ "" ∧ b.sponsor ≠ "" ∧ b.congress_url ≠ "" := by
  unfold formatBasicBill at h
  injection h with h
  subst h
  exact ⟨formatDate_ne_empty _, getSponsorInfo_ne_empty _, generateCongressUrl_ne_empty _ _⟩

/-- `_format_detailed_bill` output always has a non-empty introduced
date, sponsor and congress URL. -/
theorem formatDetailedBill_core (raw : RawBill) (b : Bill)
    (h : formatDetailedBill raw = some b) :
    b.introduced_date ≠ "" ∧ b.sponsor ≠ "" ∧ b.congress_url ≠ "" := by
  unfold formatDetailedBill at h
  injection h with h
  subst h
  exact ⟨formatDate_ne_empty _, getSponsorInfo_ne_empty _, generateCongressUrl_ne_empty _ _⟩

/-- `_get_bill_details` output always has a non-empty introduced date,
sponsor and congress URL, whichever formatting path is taken. -/
theorem getBillDetails_core (d : RawBill → DetailOutcome) (raw : RawBill) (b : Bill)
    (h : getBillDetails d raw = some b) :
    b.introduced_date ≠ "" ∧ b.sponsor ≠ "" ∧ b.congress_url ≠ "" := by
  unfold getBillDetails at h
  dsimp only at h
  split at h
  · exact formatBasicBill_core _ _ h
  · split at h
    · exact formatBasicBill_core _ _ h
    · split at h
      · exact formatDetailedBill_core _ _ h
      · exact formatBasicBill_core _ _ h

/-! ## Claims -/

/-- C1: for every keyword and limit, `search_bills_by_keyword` never
raises to the caller: on any network/transport failure or any unexpected
exception during the search (both `except` arms, src/app.py:76-81) it
discards partial results and returns exactly the synthetic mock bills for
that keyword, and in every case it returns a list (the embedded function
is total with result type `List Bill`; the mock result is moreover never
empty). -/
theorem search_never_raises_c1 (d : RawBill → DetailOutcome) (keyword : String) (limit : Nat) :
    searchBillsByKeyword { search := SearchOutcome.fail, detail := d } keyword limit =
      getMockBills keyword
    ∧ getMockBills keyword ≠ [] :=
  ⟨rfl, getMockBills_ne_nil keyword⟩

/-- C2 counterexample: with a successful upstream listing whose records
lack the `type`/`updateDate` keys (first bill) or carry empty-string
values (second bill's 200 detail payload), `search_bills_by_keyword`
produces bill records whose `bill_type` and `updateDate` are the empty
string — missing upstream data is NOT replaced by a placeholder there —
and whose `id`, `title`, `summary` and `number` can also be empty.  This
refutes the claim that every field except `ai_summary` is always a
populated placeholder-substituted string. -/
theorem search_fields_c2_counterexample :
    (searchBillsByKeyword c2Net "healthcare" 20).map Bill.bill_type = ["", ""]
    ∧ (searchBillsByKeyword c2Net "healthcare" 20).map Bill.updateDate = ["", ""]
    ∧ (searchBillsByKeyword c2Net "healthcare" 20).map Bill.id = ["N/A", ""]
    ∧ (searchBillsByKeyword c2Net "healthcare" 20).map Bill.title = ["healthcare reform", ""]
    ∧ (searchBillsByKeyword c2Net "healthcare" 20).map Bill.summary = ["No summary available", ""]
    ∧ (searchBillsByKeyword c2Net "healthcare" 20).map Bill.number = ["N/A", ""] := by
  refine ⟨?_, ?_, ?_, ?_, ?_, ?_⟩ <;> decide

/-- C2 (amended): every bill record produced by `search_bills_by_keyword`
is a complete record of (non-null) string fields, and the fields
`introduced_date`, `sponsor` and `congress_url` are always non-empty,
with placeholders substituted for missing upstream data; the remaining
fields (`id`, `title`, `summary`, `bill_type`, `number`, `updateDate`)
can be the empty string when the upstream payload supplies absent or
empty values for them. -/
theorem search_fields_c2_amended (net : KeywordNet) (keyword : String) (limit : Nat)
    (b : Bill) (hb : b ∈ searchBillsByKeyword net keyword limit) :
    b.introduced_date ≠ "" ∧ b.sponsor ≠ "" ∧ b.congress_url ≠ "" := by
  unfold searchBillsByKeyword at hb
  split at hb
  · exact getMockBills_fields _ _ hb
  · rw [List.reduceOption_mem_iff, List.mem_map] at hb
    obtain ⟨raw, _, hraw⟩ := hb
    exact getBillDetails_core _ _ _ hraw

/-- Witness for the amended C2, at the healthcare mock fallback. -/
theorem search_fields_c2_amended_witness :
    mockHealthcareBill1 ∈ searchBillsByKeyword failNet "healthcare" 20
    ∧ (mockHealthcareBill1.introduced_date ≠ "" ∧ mockHealthcareBill1.sponsor ≠ ""
        ∧ mockHealthcareBill1.congress_url ≠ "") :=
  ⟨by decide, search_fields_c2_amended failNet "healthcare" 20 mockHealthcareBill1 (by decide)⟩

/-- C3 (evaluation of the buggy code): `_normalize_state` maps the
2-letter input "ca" to "CA" and "Atlantis" to the unresolved sentinel
`None` as the claim states, but maps "California" to `None` instead of
"CA": the full-name lookup `return` is commented out at src/app.py:359,
contradicting the repository's own test
(`assert state_abbr == "CA"`, src/test_app.py:49-50). -/
theorem normalize_state_c3_eval :
    normalizeState "ca" = some "CA"
    ∧ normalizeState "Atlantis" = none
    ∧ normalizeState "California" = none := by
  refine ⟨?_, ?_, ?_⟩ <;> decide

/-- C4 (evaluation of the buggy code): unrecognized input of length ≠ 2
("Paris") does normalize to the sentinel `None`, but the unrecognized
2-letter input "zz" also normalizes to `None` instead of being passed
through upper-cased as "ZZ": the best-effort pass-through
`state_input.upper() if len(state_input) == 2 else None` is part of the
commented-out return at src/app.py:359. -/
theorem normalize_state_c4_eval :
    normalizeState "Paris" = none ∧ normalizeState "zz" = none := by
  refine ⟨?_, ?_⟩ <;> decide

/-- C5: Congress-URL generation is a pure total function of the
(type, number) pair: with both present it returns
`https://www.congress.gov/bill/118th-congress/{segment}/{number}` where
the segment comes from the fixed 8-entry mapping with `bill` as the
default for any other type, and a missing type or number yields the bare
domain. -/
theorem congress_url_c5 (t n : String) (ht : t ≠ "") (hn : n ≠ "") :
    generateCongressUrl t n =
      "https://www.congress.gov/bill/118th-congress/" ++ urlSegment t ++ "/" ++ n
    ∧ urlSegment "HR" = "house-bill"
    ∧ urlSegment "S" = "senate-bill"
    ∧ urlSegment "HJRES" = "house-joint-resolution"
    ∧ urlSegment "SJRES" = "senate-joint-resolution"
    ∧ urlSegment "HCONRES" = "house-concurrent-resolution"
    ∧ urlSegment "SCONRES" = "senate-concurrent-resolution"
    ∧ urlSegment "HRES" = "house-resolution"
    ∧ urlSegment "SRES" = "senate-resolution"
    ∧ (∀ t2, pyUpper t2 ≠ "HR" → pyUpper t2 ≠ "S" → pyUpper t2 ≠ "HJRES" →
        pyUpper t2 ≠ "SJRES" → pyUpper t2 ≠ "HCONRES" → pyUpper t2 ≠ "SCONRES" →
        pyUpper t2 ≠ "HRES" → pyUpper t2 ≠ "SRES" → urlSegment t2 = "bill")
    ∧ (∀ m, generateCongressUrl "" m = "https://www.congress.gov")
    ∧ (∀ m, generateCongressUrl m "" = "https://www.congress.gov") := by
  refine ⟨?_, rfl, rfl, rfl, rfl, rfl, rfl, rfl, rfl, ?_, fun m => rfl, fun m => ?_⟩
  · unfold generateCongressUrl
    rw [if_neg (not_or.mpr ⟨ht, hn⟩)]
    exact congrArg (fun s => s ++ urlSegment t ++ "/" ++ n) (by decide)
  · intro t2 h1 h2 h3 h4 h5 h6 h7 h8
    unfold urlSegment
    split <;> first
      | rfl
      | (rename_i heq
         first
          | exact absurd heq h1 | exact absurd heq h2 | exact absurd heq h3
          | exact absurd heq h4 | exact absurd heq h5 | exact absurd heq h6
          | exact absurd heq h7 | exact absurd heq h8)
  · unfold generateCongressUrl
    rw [if_pos (Or.inr rfl)]

/-- Witness for C5 at the pair ("HR", "3421"). -/
theorem congress_url_c5_witness :
    ("HR" : String) ≠ "" ∧ ("3421" : String) ≠ ""
    ∧ generateCongressUrl "HR" "3421" =
        "https://www.congress.gov/bill/118th-congress/" ++ urlSegment "HR" ++ "/" ++ "3421" :=
  ⟨by decide, by decide, (congress_url_c5 "HR" "3421" (by decide) (by decide)).1⟩

/-- C6: exporting an empty bill list is rejected with a validation error
(not a header-only file); exporting one bill gives exactly the header row
plus one data row with the 7 fixed columns in order Bill ID, Title,
Summary, Introduced Date, Sponsor, Type, Congress URL; and for any
non-empty input list the rows are one per bill, in input order. -/
theorem api_export_c6 (b : Bill) (bills : List Bill) (h : bills ≠ []) :
    apiExport [] = Except.error "No bills to export"
    ∧ apiExport [b] = Except.ok [exportHeader, billRow b]
    ∧ exportHeader = ["Bill ID", "Title", "Summary", "Introduced Date", "Sponsor", "Type", "Congress URL"]
    ∧ billRow b = [b.id, b.title, b.summary, b.introduced_date, b.sponsor, b.bill_type, b.congress_url]
    ∧ apiExport bills = Except.ok (exportHeader :: bills.map billRow)
    ∧ (bills.map billRow).length = bills.length := by
  refine ⟨rfl, rfl, rfl, rfl, ?_, bills.length_map _⟩
  unfold apiExport
  rw [if_neg h]

/-- Witness for C6 with a one-element bill list. -/
theorem api_export_c6_witness :
    ([sampleBill] : List Bill) ≠ []
    ∧ apiExport [sampleBill] = Except.ok [exportHeader, billRow sampleBill] :=
  ⟨by decide, (api_export_c6 sampleBill [sampleBill] (by decide)).2.1⟩

/-- C7 counterexample: with a credential configured and an HTTP 200
response whose first element carries `summary_text = ""`,
`get_llm_summary` returns the empty string — so it does not always
return a non-empty string as claimed. -/
theorem llm_summary_c7_counterexample :
    getLlmSummary (some "key") (LlmOutcome.response 200 (LlmBody.list [some ""]))
      "text" "healthcare" = "" := rfl

/-- C7 (amended): summary enrichment never raises and always returns a
string; without a credential it returns the canned no-credential
fallback; with a credential, any exception/timeout returns the canned
exception fallback and any non-success status or non-list/empty-list
body returns the canned failed-call fallback; all three canned fallbacks
mention the topic and are non-empty.  On a 200 response with a non-empty
list body the returned string is the first element's `summary_text`
(defaulting to "Summary not available"), which can be empty. -/
theorem llm_summary_c7_amended (key : String) (hkey : key ≠ "") (status : Nat)
    (hstatus : status ≠ 200) (badBody : LlmBody)
    (hbad : badBody = LlmBody.nonList ∨ badBody = LlmBody.list [])
    (bill_text topic : String) :
    (∀ out, getLlmSummary none out bill_text topic = noKeyFallback topic)
    ∧ getLlmSummary (some key) LlmOutcome.exception bill_text topic = exceptionFallback topic
    ∧ (∀ body, getLlmSummary (some key) (LlmOutcome.response status body) bill_text topic
        = failFallback topic)
    ∧ getLlmSummary (some key) (LlmOutcome.response 200 badBody) bill_text topic
        = failFallback topic
    ∧ (∀ first rest, getLlmSummary (some key)
        (LlmOutcome.response 200 (LlmBody.list (first :: rest))) bill_text topic
        = first.getD "Summary not available")
    ∧ (∃ p q, noKeyFallback topic = p ++ topic ++ q)
    ∧ (∃ p q, failFallback topic = p ++ topic ++ q)
    ∧ (∃ p q, exceptionFallback topic = p ++ topic ++ q)
    ∧ noKeyFallback topic ≠ "" ∧ failFallback topic ≠ "" ∧ exceptionFallback topic ≠ "" := by
  have hkt : pyTruthy (some key) = true := by simp [pyTruthy, hkey]
  refine ⟨fun out => rfl, ?_, ?_, ?_, ?_,
    ⟨"AI Summary not available (API key required). This bill relates to ", ".", rfl⟩,
    ⟨"This bill addresses ", "-related policies and may impact regulatory compliance for businesses.", rfl⟩,
    ⟨"AI summary unavailable. This bill relates to ", " and may have regulatory implications.", rfl⟩,
    append_ne_empty_right _ _ (by decide),
    append_ne_empty_right _ _ (by decide),
    append_ne_empty_right _ _ (by decide)⟩
  · simp [getLlmSummary, hkt]
  · intro body
    simp [getLlmSummary, hkt, hstatus]
  · rcases hbad with hb | hb <;> subst hb <;> simp [getLlmSummary, hkt]
  · intro first rest
    simp [getLlmSummary, hkt]

/-- Witness for the amended C7, with credential "k", status 500 and a
non-list body. -/
theorem llm_summary_c7_amended_witness :
    ("k" : String) ≠ "" ∧ (500 : Nat) ≠ 200
    ∧ (LlmBody.nonList = LlmBody.nonList ∨ LlmBody.nonList = LlmBody.list [])
    ∧ getLlmSummary (some "k") LlmOutcome.exception "text" "healthcare"
        = exceptionFallback "healthcare" :=
  ⟨by decide, by decide, Or.inl rfl,
    (llm_summary_c7_amended "k" (by decide) 500 (by decide) LlmBody.nonList
      (Or.inl rfl) "text" "healthcare").2.1⟩

/-- C8: the state mock fallback is deterministic.  For every in-process
hash function `h` (CPython's string hash is fixed within one process),
two consecutive failed-upstream searches for "Texas" return identical
results; each call synthesizes exactly two bills, one House and one
Senate, whose numbers are derived from `h` applied to the output of the
state-normalization step (which, for "Texas", falls back to the
upper-cased input "TEXAS", since `_normalize_state` cannot resolve full
names — see C3). -/
theorem state_mock_deterministic_c8 (h : String → Nat) :
    searchBillsByStateFailed h "Texas" = searchBillsByStateFailed h "Texas"
    ∧ (searchBillsByStateFailed h "Texas").length = 2
    ∧ (searchBillsByStateFailed h "Texas").map Bill.bill_type = ["HR", "S"]
    ∧ (searchBillsByStateFailed h "Texas").map Bill.number =
        [toString (h ((normalizeState "Texas").getD (pyUpper "Texas")) % 9000 + 1000),
         toString (h (((normalizeState "Texas").getD (pyUpper "Texas")) ++ "senate") % 2000 + 100)]
    ∧ (normalizeState "Texas").getD (pyUpper "Texas") = "TEXAS" :=
  ⟨rfl, rfl, rfl, rfl, rfl⟩

/-- C9: searching for "healthcare" with the upstream unreachable returns
exactly the two canned healthcare topic bills, and each returned bill's
congress URL contains "house-bill" or "senate-bill". -/
theorem healthcare_fallback_c9 (d : RawBill → DetailOutcome) :
    searchBillsByKeyword { search := SearchOutcome.fail, detail := d } "healthcare" 20 =
      [mockHealthcareBill1, mockHealthcareBill2]
    ∧ ∀ b ∈ searchBillsByKeyword { search := SearchOutcome.fail, detail := d } "healthcare" 20,
        strContains b.congress_url "house-bill" = true
        ∨ strContains b.congress_url "senate-bill" = true := by
  have h : searchBillsByKeyword { search := SearchOutcome.fail, detail := d } "healthcare" 20
      = getMockBills "healthcare" := rfl
  rw [h]
  exact ⟨by decide, by decide⟩

/-- C10: the keyword mock fallback never returns an empty list: the
keywords that substring-match (in either direction) one or more of the
five topic keys get those topics' canned bills, and every other keyword
gets exactly the two generic default bills whose titles (and summaries)
interpolate the keyword. -/
theorem mock_fallback_c10 (keyword : String) :
    getMockBills keyword ≠ []
    ∧ getMockBills keyword =
        (if mockRelevant keyword = [] then defaultBills keyword
         else mockRelevant keyword).map formatMockBill
    ∧ (defaultBills keyword).length = 2
    ∧ (defaultBills keyword).map MockBill.title =
        ["American Innovation and Competitiveness Act Related to " ++ pyTitle keyword,
         "Bipartisan " ++ pyTitle keyword ++ " Reform Act of 2024"] :=
  ⟨getMockBills_ne_nil keyword, rfl, rfl, rfl⟩

end LegisWatch
